import Mathlib

/-!
Verification of the broadcast command handler in `src/app.py`.

The handler `handle_broadcast` receives a slash-command invocation
(user id, raw text), checks authorization against `ALLOWED_BROADCASTERS`,
trims the text, parses the case-insensitive `CONFIRM:` marker, and either
answers with a usage / guard / preview message or fans out one send per
configured channel in `BROADCAST_CHANNEL_IDS`, collecting per-channel
outcomes.

The embedding below mirrors the Python source statement by statement.
Python strings are sequences of code points, so the string primitives
(`strip`, `upper`, slicing, `startswith`) are modelled on `List Char`.
The external world (the Slack client) is modelled by an outcome oracle
`Nat → SendOutcome` giving the result of the n-th send call of the
invocation, and the handler produces, besides its response string, the
ordered trace of externally visible events (send calls, the fixed
inter-send sleep, error log entries).
-/

/-- Outcome of one `client.chat_postMessage` call: success, a
`SlackApiError`, or any other exception. -/
inductive SendOutcome where
  | success
  | apiError
  | otherError
  deriving DecidableEq

/-- Externally visible events of one invocation: a send call with its
channel and text, the fixed `time.sleep(0.2)` pause, or a `logger.error`
entry for a failed channel. -/
inductive Event where
  | send (channel : String) (text : String)
  | sleep
  | logError (channel : String)
  deriving DecidableEq

/-- Process-wide configuration, loaded once at startup: the ordered
channel list `BROADCAST_CHANNEL_IDS` and the allowed-user list
`ALLOWED_BROADCASTERS` (a set in the source; order is irrelevant here,
only membership is ever queried). -/
structure Config where
  BROADCAST_CHANNEL_IDS : List String
  ALLOWED_BROADCASTERS : List String

/-- Whitespace as recognised by Python `str.strip()` on the ASCII range. -/
def py_isspace (c : Char) : Bool :=
  c = ' ' || c = '\t' || c = '\n' || c = '\r' || c = '\x0b' || c = '\x0c'

/-- Python `str.strip()` on the underlying code-point list: drop leading
and trailing whitespace. -/
def py_strip_data (l : List Char) : List Char :=
  ((l.dropWhile py_isspace).reverse.dropWhile py_isspace).reverse

/-- Python `str.strip()`. -/
def py_strip (s : String) : String := String.mk (py_strip_data s.data)

/-- Python `str.upper()` on one code point. Python applies the full
Unicode uppercase mapping, under which a single code point may expand to
several (the cases relevant to this development: the ligatures ﬁ and ﬂ
and the sharp s ß); on ASCII it agrees with `Char.toUpper`. -/
def py_upper_char (c : Char) : List Char :=
  if c = 'ﬁ' then ['F', 'I']
  else if c = 'ﬂ' then ['F', 'L']
  else if c = 'ß' then ['S', 'S']
  else [c.toUpper]

/-- Python `str.upper()` on a code-point list. -/
def py_upper_data : List Char → List Char
  | [] => []
  | c :: cs => py_upper_char c ++ py_upper_data cs

/-- Python `str.upper()`. -/
def py_upper (s : String) : String := String.mk (py_upper_data s.data)

/-- Python `s.startswith(p)`: `p` is a prefix of `s` (code-point-wise). -/
def py_startsWith (s p : String) : Bool := p.data.isPrefixOf s.data

/-- Python slicing `s[n:]`: drop the first `n` code points. -/
def py_drop (s : String) (n : Nat) : String := String.mk (s.data.drop n)

/-- `user_is_allowed` from `src/app.py`: if `ALLOWED_BROADCASTERS` is
empty, any user is allowed; otherwise only listed user ids may
broadcast. -/
def user_is_allowed (cfg : Config) (user_id : String) : Bool :=
  if cfg.ALLOWED_BROADCASTERS = [] then true
  else cfg.ALLOWED_BROADCASTERS.contains user_id

/-- The confirmation marker `confirm_prefix = "CONFIRM:"` of the source. -/
def confirm_marker : String := "CONFIRM:"

/-- Confirmation parsing of `handle_broadcast`: if
`text_raw.upper().startswith("CONFIRM:")` then the parse is confirmed and
the body is `text_raw[len("CONFIRM:"):].strip()` (a positional slice of
the original, untouched text); otherwise the body is `text_raw` itself. -/
def parse_confirm (text_raw : String) : Bool × String :=
  if py_startsWith (py_upper text_raw) confirm_marker then
    (true, py_strip (py_drop text_raw confirm_marker.length))
  else
    (false, text_raw)

/-- Rejection message of the permission check. -/
def rejection_msg : String := "You are not allowed to use `/partner_broadcast`."

/-- Usage message for an empty argument. -/
def usage_msg : String :=
  "Usage:\nâ€¢ Preview: `/partner_broadcast Your message here`\nâ€¢ Confirm: `/partner_broadcast CONFIRM: Your message here`"

/-- Error message for an empty body after the confirmation marker. -/
def empty_after_confirm_msg : String :=
  "Your message is empty after the CONFIRM prefix.\nUsage: `/partner_broadcast CONFIRM: Your message here`"

/-- Operator guidance message when no channels are configured. -/
def no_channels_msg : String :=
  "No broadcast channels are configured.\n\nAsk the maintainer to set BROADCAST_CHANNEL_IDS in the environment to a comma-separated list of channel IDs."

/-- Preview response: the pieces concatenated exactly as in the source's
f-strings (the channel summary is `", ".join(BROADCAST_CHANNEL_IDS)`). -/
def preview_msg (text : String) (channels : List String) : String :=
  "Preview only â€” nothing has been sent yet.\n\n"
    ++ "This message:\n\n"
    ++ text
    ++ "\n\nWould be sent to "
    ++ toString channels.length
    ++ " channel(s):\n"
    ++ String.intercalate (", ") channels
    ++ "\n\nIf this looks correct, send:\n"
    ++ "`/partner_broadcast CONFIRM: "
    ++ text
    ++ "`"

/-- Summary response of a completed broadcast: the base sentence, plus a
failure clause when `failed` is non-empty. -/
def summary_msg (sent : Nat) (failed : List String) : String :=
  let msg := "Broadcast complete. Sent to " ++ toString sent ++ " channel(s)."
  if failed = [] then msg
  else
    msg ++ " Failed on " ++ toString failed.length ++ " channel(s): "
      ++ String.intercalate (", ") failed

/-- The confirmed-branch fan-out loop of `handle_broadcast`, iterating
the channel list in order. `outcome i` is the result of the send call at
loop position `i`. A successful send increments `sent` and is followed by
the fixed sleep; a failed send (either exception kind) appends the
channel to `failed` and logs the error, with no sleep and no retry.
Returns `(sent, failed, events)`. -/
def broadcast_loop (text : String) (outcome : Nat → SendOutcome) :
    List String → Nat → Nat × List String × List Event
  | [], _ => (0, [], [])
  | c :: rest, i =>
    let r := broadcast_loop text outcome rest (i + 1)
    match outcome i with
    | SendOutcome.success =>
        (r.1 + 1, r.2.1, Event.send c text :: Event.sleep :: r.2.2)
    | SendOutcome.apiError =>
        (r.1, c :: r.2.1, Event.send c text :: Event.logError c :: r.2.2)
    | SendOutcome.otherError =>
        (r.1, c :: r.2.1, Event.send c text :: Event.logError c :: r.2.2)

/-- `handle_broadcast` from `src/app.py` (the `ack()` acknowledgment is a
transport concern with no bearing on the response or the sends). The
guards appear in source order: permission check, empty trimmed text,
confirmation parse, empty body after the marker, empty channel list,
preview branch, confirmed fan-out. Returns the response string passed to
`respond` together with the event trace. -/
def handle_broadcast (cfg : Config) (user_id : String) (raw_text : String)
    (outcome : Nat → SendOutcome) : String × List Event :=
  if user_is_allowed cfg user_id = false then (rejection_msg, [])
  else if py_strip raw_text = "" then (usage_msg, [])
  else if (parse_confirm (py_strip raw_text)).2 = "" then
    (empty_after_confirm_msg, [])
  else if cfg.BROADCAST_CHANNEL_IDS = [] then (no_channels_msg, [])
  else if (parse_confirm (py_strip raw_text)).1 = false then
    (preview_msg ((parse_confirm (py_strip raw_text)).2) cfg.BROADCAST_CHANNEL_IDS, [])
  else
    (summary_msg
        (broadcast_loop ((parse_confirm (py_strip raw_text)).2) outcome
          cfg.BROADCAST_CHANNEL_IDS 0).1
        (broadcast_loop ((parse_confirm (py_strip raw_text)).2) outcome
          cfg.BROADCAST_CHANNEL_IDS 0).2.1,
     (broadcast_loop ((parse_confirm (py_strip raw_text)).2) outcome
        cfg.BROADCAST_CHANNEL_IDS 0).2.2)

/-- The send calls of an event trace, in order, with their channel and
text. -/
def send_calls (es : List Event) : List (String × String) :=
  es.filterMap (fun e => match e with
    | Event.send c t => some (c, t)
    | _ => none)

/-- Scanner over the send/sleep skeleton of a trace (`true` = send,
`false` = sleep): `false` exactly when two send calls are adjacent, i.e.
not separated by a sleep. -/
def noAdjacentSends : List Bool → Bool
  | true :: true :: _ => false
  | _ :: rest => noAdjacentSends rest
  | [] => true

/-- Whether every pair of consecutive send calls of a trace is separated
by a sleep. -/
def sends_sleep_separated (es : List Event) : Bool :=
  noAdjacentSends (es.filterMap (fun e => match e with
    | Event.send _ _ => some true
    | Event.sleep => some false
    | _ => none))

/-- Modelled from the spec's words, for comparison with `parse_confirm`
(the source's marker test goes through Python `upper`): the spec reads
"starts with the marker (case-insensitive comparison)" as a
code-point-wise case-insensitive prefix match, returning the remainder
after the marker when it matches. -/
def spec_marker_split (t : String) : Option String :=
  if (t.data.take confirm_marker.length).length = confirm_marker.length
      && ((t.data.take confirm_marker.length).zip confirm_marker.data).all
           (fun q => q.1.toUpper = q.2.toUpper) then
    some (String.mk (t.data.drop confirm_marker.length))
  else none

/-- Containment of `t` in `s` as contiguous text. -/
def str_contains (s t : String) : Prop := ∃ a b : String, s = a ++ t ++ b

/-! ### Helper lemmas -/

theorem parse_confirm_empty : parse_confirm ("") = (false, ("")) := by decide

theorem marker_not_on_empty :
    py_startsWith (py_upper ("")) confirm_marker = false := by decide

theorem broadcast_loop_send_calls (text : String) (outcome : Nat → SendOutcome) :
    ∀ (channels : List String) (i : Nat),
      send_calls (broadcast_loop text outcome channels i).2.2
        = channels.map (fun c => (c, text)) := by
  intro channels
  induction channels with
  | nil => intro i; rfl
  | cons c rest ih =>
    intro i
    cases h : outcome i <;>
      simp [broadcast_loop, h, send_calls, List.filterMap] at ih ⊢ <;>
      exact ih (i + 1)

/-! ### Claim C2 -/

/-- Claim C2: for every `userID` not in a non-empty `ALLOWED_BROADCASTERS`
list, `handle_broadcast` returns the fixed rejection message and triggers
zero send calls, for every text and every external-world behaviour (so no
text-parsing decision affects the response); and when
`ALLOWED_BROADCASTERS` is empty, the authorization check passes for every
user. -/
theorem c2_authorization (cfg : Config) (uid : String) :
    (cfg.ALLOWED_BROADCASTERS ≠ [] → uid ∉ cfg.ALLOWED_BROADCASTERS →
      ∀ (raw : String) (outcome : Nat → SendOutcome),
        handle_broadcast cfg uid raw outcome = (rejection_msg, []))
    ∧ (cfg.ALLOWED_BROADCASTERS = [] → user_is_allowed cfg uid = true) := by
  constructor
  · intro hne hmem raw outcome
    have hna : user_is_allowed cfg uid = false := by
      simp [user_is_allowed, hne]
      exact hmem
    simp [handle_broadcast, hna]
  · intro he
    simp [user_is_allowed, he]

/-- Witness for C2 at a concrete configuration and user. -/
theorem c2_authorization_witness :
    handle_broadcast ⟨["C1"], ["U1"]⟩ ("U2") ("hello") (fun _ => SendOutcome.success)
      = (rejection_msg, [])
    ∧ user_is_allowed ⟨["C1"], []⟩ ("U2") = true :=
  ⟨(c2_authorization ⟨["C1"], ["U1"]⟩ ("U2")).1 (by decide) (by decide)
      ("hello") (fun _ => SendOutcome.success),
   (c2_authorization ⟨["C1"], []⟩ ("U2")).2 rfl⟩

/-! ### Claim C3 -/

/-- Claim C3: after the fan-out loop completes, the number of successful
sends plus the number of failed channels equals the number of configured
channels, and every recorded failed channel is a member of the channel
list. -/
theorem c3_partition (text : String) (outcome : Nat → SendOutcome) :
    ∀ (channels : List String) (i : Nat),
      (broadcast_loop text outcome channels i).1
          + (broadcast_loop text outcome channels i).2.1.length
        = channels.length
      ∧ ∀ c ∈ (broadcast_loop text outcome channels i).2.1, c ∈ channels := by
  intro channels
  induction channels with
  | nil => intro i; simp [broadcast_loop]
  | cons c rest ih =>
    intro i
    obtain ⟨ihlen, ihmem⟩ := ih (i + 1)
    cases h : outcome i <;> simp [broadcast_loop, h] <;>
      exact ⟨by omega, fun x hx => Or.inr (ihmem x hx)⟩

/-- Witness for C3 at a concrete loop run with one failure. -/
theorem c3_partition_witness :
    (broadcast_loop ("hey") (fun n => if n = 1 then SendOutcome.apiError else SendOutcome.success)
          ["A", "B", "C"] 0).1
        + (broadcast_loop ("hey") (fun n => if n = 1 then SendOutcome.apiError else SendOutcome.success)
          ["A", "B", "C"] 0).2.1.length
      = 3
    ∧ ("B") ∈ ["A", "B", "C"] :=
  ⟨(c3_partition ("hey") (fun n => if n = 1 then SendOutcome.apiError else SendOutcome.success)
      ["A", "B", "C"] 0).1,
   (c3_partition ("hey") (fun n => if n = 1 then SendOutcome.apiError else SendOutcome.success)
      ["A", "B", "C"] 0).2 ("B") (by decide)⟩

/-! ### Claim C7 -/

/-- Claim C7: with an empty `BROADCAST_CHANNEL_IDS` list, every
authorized invocation whose parsed message body is non-empty — preview or
confirmed alike — gets the operator guidance message and triggers zero
send calls. -/
theorem c7_no_channels (cfg : Config) (uid raw : String)
    (outcome : Nat → SendOutcome)
    (hAllow : user_is_allowed cfg uid = true)
    (hCh : cfg.BROADCAST_CHANNEL_IDS = [])
    (hBody : (parse_confirm (py_strip raw)).2 ≠ ("")) :
    handle_broadcast cfg uid raw outcome = (no_channels_msg, []) := by
  have hNE : py_strip raw ≠ "" := by
    intro h
    apply hBody
    rw [h]
    decide
  simp [handle_broadcast, hAllow, hNE, hBody, hCh]

/-- Witness for C7: one preview input and one confirmed input, both
against an empty channel list. -/
theorem c7_no_channels_witness :
    handle_broadcast ⟨[], []⟩ ("U") ("hello") (fun _ => SendOutcome.success)
      = (no_channels_msg, [])
    ∧ handle_broadcast ⟨[], []⟩ ("U") ("CONFIRM: hi") (fun _ => SendOutcome.success)
      = (no_channels_msg, []) :=
  ⟨c7_no_channels ⟨[], []⟩ ("U") ("hello") (fun _ => SendOutcome.success)
      (by decide) rfl (by decide),
   c7_no_channels ⟨[], []⟩ ("U") ("CONFIRM: hi") (fun _ => SendOutcome.success)
      (by decide) rfl (by decide)⟩

/-! ### Claim C9 -/

/-- Claim C9: for an authorized invocation, an empty trimmed text yields
the generic usage message; a trimmed text that carries the confirmation
marker but whose body is empty after stripping yields the distinct
empty-after-confirm message (which differs from the usage message); both
paths trigger zero send calls. -/
theorem c9_empty_inputs (cfg : Config) (uid raw : String)
    (outcome : Nat → SendOutcome)
    (hAllow : user_is_allowed cfg uid = true) :
    (py_strip raw = ("") →
      handle_broadcast cfg uid raw outcome = (usage_msg, []))
    ∧ (py_startsWith (py_upper (py_strip raw)) confirm_marker = true →
        (parse_confirm (py_strip raw)).2 = ("") →
          handle_broadcast cfg uid raw outcome = (empty_after_confirm_msg, []))
    ∧ empty_after_confirm_msg ≠ usage_msg := by
  refine ⟨?_, ?_, by decide⟩
  · intro h
    simp [handle_broadcast, hAllow, h]
  · intro hconf hempty
    have hNE : py_strip raw ≠ "" := by
      intro h
      rw [h] at hconf
      exact absurd hconf (by decide)
    simp [handle_broadcast, hAllow, hNE, hempty]

/-- Witness for C9: whitespace-only input, and the bare marker input. -/
theorem c9_empty_inputs_witness :
    handle_broadcast ⟨["C1"], []⟩ ("U") ("   ") (fun _ => SendOutcome.success)
      = (usage_msg, [])
    ∧ handle_broadcast ⟨["C1"], []⟩ ("U") ("CONFIRM:") (fun _ => SendOutcome.success)
      = (empty_after_confirm_msg, []) :=
  ⟨(c9_empty_inputs ⟨["C1"], []⟩ ("U") ("   ") (fun _ => SendOutcome.success)
      (by decide)).1 (by decide),
   (c9_empty_inputs ⟨["C1"], []⟩ ("U") ("CONFIRM:") (fun _ => SendOutcome.success)
      (by decide)).2.1 (by decide) (by decide)⟩

/-! ### Claim C10 -/

/-- Claim C10 (implicit): marker stripping is positional, not textual.
Whenever the Python-uppercased trimmed text starts with `"CONFIRM:"`, the
parse is confirmed and the message body is obtained by slicing off the
first `8` code points of the original (non-uppercased) text and then
stripping — as witnessed by the ligature input `"conﬁrm:hi"`, whose
uppercase form starts with the marker although the matched original
prefix is only 7 code points long, so the slice also eats the first
letter of the intended body. -/
theorem c10_positional_strip (t : String) (_ht : py_strip t = t)
    (hM : py_startsWith (py_upper t) confirm_marker = true) :
    parse_confirm t = (true, py_strip (py_drop t confirm_marker.length))
    ∧ parse_confirm ("conﬁrm:hi") = (true, ("i")) :=
  ⟨by simp [parse_confirm, hM], by decide⟩

/-- Witness for C10 at a concrete marker-bearing input. -/
theorem c10_positional_strip_witness :
    parse_confirm ("CONFIRM:x")
      = (true, py_strip (py_drop ("CONFIRM:x") confirm_marker.length))
    ∧ parse_confirm ("conﬁrm:hi") = (true, ("i")) :=
  c10_positional_strip ("CONFIRM:x") (by decide) (by decide)

/-! ### Claim C1 -/

/-- Claim C1: an authorized invocation with non-empty trimmed text that
does not carry the confirmation marker, against a non-empty channel list,
triggers zero send calls (its event trace is empty) and returns the
preview response, which contains the verbatim message body, the count of
configured destinations, the full comma-separated destination list, and
the ready-to-copy confirm invocation embedding the same body after the
marker. -/
theorem c1_preview_frame (cfg : Config) (uid raw : String)
    (outcome : Nat → SendOutcome)
    (hAllow : user_is_allowed cfg uid = true)
    (hNE : py_strip raw ≠ (""))
    (hNC : py_startsWith (py_upper (py_strip raw)) confirm_marker = false)
    (hCh : cfg.BROADCAST_CHANNEL_IDS ≠ []) :
    (handle_broadcast cfg uid raw outcome).2 = []
    ∧ (handle_broadcast cfg uid raw outcome).1
        = preview_msg (py_strip raw) cfg.BROADCAST_CHANNEL_IDS
    ∧ str_contains (handle_broadcast cfg uid raw outcome).1 (py_strip raw)
    ∧ str_contains (handle_broadcast cfg uid raw outcome).1
        (toString cfg.BROADCAST_CHANNEL_IDS.length)
    ∧ str_contains (handle_broadcast cfg uid raw outcome).1
        (String.intercalate (", ") cfg.BROADCAST_CHANNEL_IDS)
    ∧ str_contains (handle_broadcast cfg uid raw outcome).1
        ("`/partner_broadcast CONFIRM: " ++ py_strip raw) := by
  have hpc : parse_confirm (py_strip raw) = (false, py_strip raw) := by
    simp [parse_confirm, hNC]
  have hred : handle_broadcast cfg uid raw outcome
      = (preview_msg (py_strip raw) cfg.BROADCAST_CHANNEL_IDS, []) := by
    simp [handle_broadcast, hAllow, hNE, hpc, hCh]
  rw [hred]
  refine ⟨rfl, rfl, ?_, ?_, ?_, ?_⟩
  · refine ⟨"Preview only â€” nothing has been sent yet.\n\n" ++ "This message:\n\n",
      "\n\nWould be sent to "
        ++ toString cfg.BROADCAST_CHANNEL_IDS.length
        ++ " channel(s):\n"
        ++ String.intercalate (", ") cfg.BROADCAST_CHANNEL_IDS
        ++ "\n\nIf this looks correct, send:\n"
        ++ "`/partner_broadcast CONFIRM: "
        ++ py_strip raw
        ++ "`", ?_⟩
    simp only [preview_msg, String.append_assoc]
  · refine ⟨"Preview only â€” nothing has been sent yet.\n\n" ++ "This message:\n\n"
        ++ py_strip raw
        ++ "\n\nWould be sent to ",
      " channel(s):\n"
        ++ String.intercalate (", ") cfg.BROADCAST_CHANNEL_IDS
        ++ "\n\nIf this looks correct, send:\n"
        ++ "`/partner_broadcast CONFIRM: "
        ++ py_strip raw
        ++ "`", ?_⟩
    simp only [preview_msg, String.append_assoc]
  · refine ⟨"Preview only â€” nothing has been sent yet.\n\n" ++ "This message:\n\n"
        ++ py_strip raw
        ++ "\n\nWould be sent to "
        ++ toString cfg.BROADCAST_CHANNEL_IDS.length
        ++ " channel(s):\n",
      "\n\nIf this looks correct, send:\n"
        ++ "`/partner_broadcast CONFIRM: "
        ++ py_strip raw
        ++ "`", ?_⟩
    simp only [preview_msg, String.append_assoc]
  · refine ⟨"Preview only â€” nothing has been sent yet.\n\n" ++ "This message:\n\n"
        ++ py_strip raw
        ++ "\n\nWould be sent to "
        ++ toString cfg.BROADCAST_CHANNEL_IDS.length
        ++ " channel(s):\n"
        ++ String.intercalate (", ") cfg.BROADCAST_CHANNEL_IDS
        ++ "\n\nIf this looks correct, send:\n",
      "`", ?_⟩
    simp only [preview_msg, String.append_assoc]

/-- Witness for C1 at the spec's own scenario: unrestricted users,
channels `C1, C2`, input `"hello"`. -/
theorem c1_preview_frame_witness :
    (handle_broadcast ⟨["C1", "C2"], []⟩ ("U") ("hello")
        (fun _ => SendOutcome.success)).2 = []
    ∧ str_contains
        (handle_broadcast ⟨["C1", "C2"], []⟩ ("U") ("hello")
          (fun _ => SendOutcome.success)).1 ("hello") :=
  ⟨(c1_preview_frame ⟨["C1", "C2"], []⟩ ("U") ("hello")
      (fun _ => SendOutcome.success) (by decide) (by decide) (by decide)
      (by decide)).1,
   (c1_preview_frame ⟨["C1", "C2"], []⟩ ("U") ("hello")
      (fun _ => SendOutcome.success) (by decide) (by decide) (by decide)
      (by decide)).2.2.1⟩

/-! ### Claim C4 -/

/-- Claim C4: during a confirmed broadcast, every failed send (API error
or any other exception) is recorded in the failed-channel list at its
position; a failure never aborts the remaining sends — the trace carries
exactly one send call per configured channel, in order, regardless of
failures; and the handler always terminates producing exactly one
response string (both exception kinds are caught inside the loop, so in
this total model nothing escapes to the caller). -/
theorem c4_failure_isolation (text : String) (outcome : Nat → SendOutcome)
    (channels : List String) (i : Nat) :
    (∀ j (hj : j < channels.length), outcome (i + j) ≠ SendOutcome.success →
        channels.get ⟨j, hj⟩ ∈ (broadcast_loop text outcome channels i).2.1)
    ∧ send_calls (broadcast_loop text outcome channels i).2.2
        = channels.map (fun c => (c, text))
    ∧ ∀ (cfg : Config) (uid raw : String),
        ∃ resp evs, handle_broadcast cfg uid raw outcome = (resp, evs) := by
  refine ⟨?_, broadcast_loop_send_calls text outcome channels i,
    fun cfg uid raw => ⟨_, _, rfl⟩⟩
  induction channels generalizing i with
  | nil => intro j hj; exact absurd hj (by simp)
  | cons c rest ih =>
    intro j hj hfail
    cases j with
    | zero =>
      cases h : outcome i with
      | success => exact absurd h (by simpa using hfail)
      | apiError => simp [broadcast_loop, h]
      | otherError => simp [broadcast_loop, h]
    | succ j' =>
      have hj' : j' < rest.length := by simpa using hj
      have hfail' : outcome ((i + 1) + j') ≠ SendOutcome.success := by
        have harith : (i + 1) + j' = i + (j' + 1) := by omega
        rw [harith]
        exact hfail
      have hmem := ih (i + 1) j' hj' hfail'
      have hget : (c :: rest).get ⟨j' + 1, hj⟩ = rest.get ⟨j', hj'⟩ := rfl
      rw [hget]
      cases h : outcome i <;> simp [broadcast_loop, h] <;>
        first
        | exact hmem
        | exact Or.inr hmem

/-- Witness for C4: a failing first channel is recorded while the second
is still sent. -/
theorem c4_failure_isolation_witness :
    ("C1") ∈ (broadcast_loop ("hi")
        (fun n => if n = 0 then SendOutcome.otherError else SendOutcome.success)
        ["C1", "C2"] 0).2.1
    ∧ send_calls (broadcast_loop ("hi")
        (fun n => if n = 0 then SendOutcome.otherError else SendOutcome.success)
        ["C1", "C2"] 0).2.2
      = [(("C1"), ("hi")), (("C2"), ("hi"))] :=
  ⟨(c4_failure_isolation ("hi")
      (fun n => if n = 0 then SendOutcome.otherError else SendOutcome.success)
      ["C1", "C2"] 0).1 0 (by decide) (by decide),
   (c4_failure_isolation ("hi")
      (fun n => if n = 0 then SendOutcome.otherError else SendOutcome.success)
      ["C1", "C2"] 0).2.1⟩

/-! ### Claim C5 -/

/-- Claim C5: a confirmed invocation that reaches the fan-out loop
attempts a send to each configured channel exactly once, in the order of
the configured list, each carrying the parsed message body — in
particular no failed destination is ever retried. -/
theorem c5_fanout_order (cfg : Config) (uid raw : String)
    (outcome : Nat → SendOutcome)
    (hAllow : user_is_allowed cfg uid = true)
    (hConf : py_startsWith (py_upper (py_strip raw)) confirm_marker = true)
    (hBody : (parse_confirm (py_strip raw)).2 ≠ (""))
    (hCh : cfg.BROADCAST_CHANNEL_IDS ≠ []) :
    send_calls (handle_broadcast cfg uid raw outcome).2
      = cfg.BROADCAST_CHANNEL_IDS.map
          (fun c => (c, (parse_confirm (py_strip raw)).2)) := by
  have hNE : py_strip raw ≠ "" := by
    intro h
    rw [h] at hConf
    exact absurd hConf (by decide)
  have hIsConf : (parse_confirm (py_strip raw)).1 = true := by
    simp [parse_confirm, hConf]
  have hred : (handle_broadcast cfg uid raw outcome).2
      = (broadcast_loop ((parse_confirm (py_strip raw)).2) outcome
          cfg.BROADCAST_CHANNEL_IDS 0).2.2 := by
    simp [handle_broadcast, hAllow, hNE, hBody, hCh, hIsConf]
  rw [hred]
  exact broadcast_loop_send_calls ((parse_confirm (py_strip raw)).2) outcome
    cfg.BROADCAST_CHANNEL_IDS 0

/-- Witness for C5: a confirmed broadcast over two channels with a
failure on the first still sends to both, once each, in order. -/
theorem c5_fanout_order_witness :
    send_calls (handle_broadcast ⟨["C1", "C2"], []⟩ ("U") ("CONFIRM: hello")
        (fun n => if n = 0 then SendOutcome.apiError else SendOutcome.success)).2
      = [(("C1"), ("hello")), (("C2"), ("hello"))] :=
  c5_fanout_order ⟨["C1", "C2"], []⟩ ("U") ("CONFIRM: hello")
    (fun n => if n = 0 then SendOutcome.apiError else SendOutcome.success)
    (by decide) (by decide) (by decide) (by decide)

/-! ### Claim C6 -/

theorem py_upper_char_no_lig (c : Char) (h1 : c ≠ 'ﬁ') (h2 : c ≠ 'ﬂ')
    (h3 : c ≠ 'ß') : py_upper_char c = [c.toUpper] := by
  simp [py_upper_char, h1, h2, h3]

theorem marker_ci_upper (c m : Char) (hm : m ∈ confirm_marker.data)
    (h : c.toUpper = m.toUpper) : py_upper_char c = [m] := by
  have hall : ∀ x ∈ confirm_marker.data,
      x.toUpper ≠ ('ﬁ').toUpper ∧ x.toUpper ≠ ('ﬂ').toUpper
        ∧ x.toUpper ≠ ('ß').toUpper ∧ x.toUpper = x := by decide
  obtain ⟨hf1, hf2, hf3, hup⟩ := hall m hm
  have h1 : c ≠ 'ﬁ' := by
    intro he
    rw [he] at h
    exact hf1 h.symm
  have h2 : c ≠ 'ﬂ' := by
    intro he
    rw [he] at h
    exact hf2 h.symm
  have h3 : c ≠ 'ß' := by
    intro he
    rw [he] at h
    exact hf3 h.symm
  rw [py_upper_char_no_lig c h1 h2 h3, h, hup]

theorem py_upper_data_append (a b : List Char) :
    py_upper_data (a ++ b) = py_upper_data a ++ py_upper_data b := by
  induction a with
  | nil => rfl
  | cons c cs ih => simp [py_upper_data, ih]

theorem py_upper_data_of_ci (p m : List Char)
    (hm : ∀ x ∈ m, x ∈ confirm_marker.data)
    (hlen : p.length = m.length)
    (hall : ∀ q ∈ p.zip m, q.1.toUpper = q.2.toUpper) :
    py_upper_data p = m := by
  induction p generalizing m with
  | nil =>
    cases m with
    | nil => rfl
    | cons d ds => simp at hlen
  | cons c cs ih =>
    cases m with
    | nil => simp at hlen
    | cons d ds =>
      have hhead : c.toUpper = d.toUpper := hall (c, d) (by simp)
      have hcd : py_upper_char c = [d] :=
        marker_ci_upper c d (hm d (by simp)) hhead
      have htail : py_upper_data cs = ds :=
        ih ds (fun x hx => hm x (by simp [hx])) (by simpa using hlen)
          (fun q hq => hall q (by simp [hq]))
      simp [py_upper_data, hcd, htail]

theorem isPrefixOf_append_self (l r : List Char) :
    l.isPrefixOf (l ++ r) = true := by
  induction l with
  | nil => simp [List.isPrefixOf]
  | cons c cs ih => simp [List.isPrefixOf, ih]

/-- When the code-point-wise case-insensitive reading of the marker match
succeeds, the source's upper-based test succeeds as well and its
positional slice returns exactly the remainder after the marker. -/
theorem spec_split_parse (t r : String) (h : spec_marker_split t = some r) :
    parse_confirm t = (true, py_strip r) := by
  unfold spec_marker_split at h
  by_cases hc : ((t.data.take confirm_marker.length).length = confirm_marker.length
      && ((t.data.take confirm_marker.length).zip confirm_marker.data).all
           (fun q => q.1.toUpper = q.2.toUpper)) = true
  · rw [if_pos hc] at h
    obtain ⟨hlen, hall⟩ := by simpa using hc
    have hr : r = String.mk (t.data.drop confirm_marker.length) := by
      exact (Option.some_inj.mp h).symm
    have hup : py_upper_data (t.data.take confirm_marker.length)
        = confirm_marker.data := by
      refine py_upper_data_of_ci _ _ (fun x hx => hx) ?_ ?_
      · simpa using hlen
      · intro q hq
        exact hall q.1 q.2 hq
    have hsplit : py_upper_data t.data
        = confirm_marker.data ++ py_upper_data (t.data.drop confirm_marker.length) := by
      conv_lhs => rw [← List.take_append_drop confirm_marker.length t.data]
      rw [py_upper_data_append, hup]
    have hstart : py_startsWith (py_upper t) confirm_marker = true := by
      unfold py_startsWith py_upper
      rw [show (String.mk (py_upper_data t.data)).data = py_upper_data t.data from rfl,
        hsplit]
      exact isPrefixOf_append_self _ _
    rw [parse_confirm, if_pos hstart, hr]
    rfl
  · rw [if_neg hc] at h
    exact absurd h (by simp)

/-- Claim C6 as stated is refuted at the ligature input `"conﬁrm:hi"`:
it is a trimmed input that does not start with the marker under
code-point-wise case-insensitive comparison, so the claim requires
`IsConfirmed = false` with the text unchanged, yet the code (matching on
the Python-uppercased text, where ﬁ expands to FI) confirms it and slices
off one character too many, returning body `"i"`. -/
theorem c6_counterexample :
    py_strip ("conﬁrm:hi") = ("conﬁrm:hi")
    ∧ spec_marker_split ("conﬁrm:hi") = none
    ∧ parse_confirm ("conﬁrm:hi") ≠ (false, ("conﬁrm:hi"))
    ∧ parse_confirm ("conﬁrm:hi") = (true, ("i")) := by
  refine ⟨by decide, by decide, ?_, by decide⟩
  intro h
  exact absurd h (by decide)

/-- Claim C6 as amended: for every trimmed input whose first eight code
points match `"CONFIRM:"` under case-insensitive comparison,
`IsConfirmed` is true and the body is the remainder after the marker,
stripped (in particular `"confirm: hi"`, `"Confirm: hi"` and
`"CONFIRM: hi"` all give body `"hi"`); and for every other trimmed input
whose Python-uppercased form does not start with the marker either (the
only exceptions being length-changing uppercase expansions such as the ﬁ
ligature), `IsConfirmed` is false and the body is the trimmed text
unchanged. -/
theorem c6_marker_case_insensitive (t : String) :
    (∀ r, spec_marker_split t = some r → parse_confirm t = (true, py_strip r))
    ∧ (spec_marker_split t = none →
        py_startsWith (py_upper t) confirm_marker = false →
          parse_confirm t = (false, t))
    ∧ parse_confirm ("confirm: hi") = (true, ("hi"))
    ∧ parse_confirm ("Confirm: hi") = (true, ("hi"))
    ∧ parse_confirm ("CONFIRM: hi") = (true, ("hi")) := by
  refine ⟨fun r h => spec_split_parse t r h, fun _ hns => ?_,
    by decide, by decide, by decide⟩
  rw [parse_confirm, if_neg (by simp [hns])]

/-- Witness for C6 at a concrete marker-bearing input. -/
theorem c6_marker_case_insensitive_witness :
    spec_marker_split ("CONFIRM:ok") = some ("ok")
    ∧ parse_confirm ("CONFIRM:ok") = (true, ("ok")) :=
  ⟨by decide,
   (c6_marker_case_insensitive ("CONFIRM:ok")).1 ("ok") (by decide)⟩

/-! ### Claim C8 -/

/-- Claim C8 as stated is refuted: when the first of two sends fails, the
trace is send, log, send, sleep — the two consecutive send attempts are
not separated by any delay, because the source sleeps only inside the
`try` block after a successful send. -/
theorem c8_counterexample :
    (broadcast_loop ("hi")
        (fun n => if n = 0 then SendOutcome.apiError else SendOutcome.success)
        ["C1", "C2"] 0).2.2
      = [Event.send ("C1") ("hi"), Event.logError ("C1"),
         Event.send ("C2") ("hi"), Event.sleep]
    ∧ sends_sleep_separated
        ((broadcast_loop ("hi")
          (fun n => if n = 0 then SendOutcome.apiError else SendOutcome.success)
          ["C1", "C2"] 0).2.2) = false := by
  refine ⟨by decide, by decide⟩

/-- Claim C8 as amended: the trace of the fan-out loop is exactly, for
each channel in order, one send event followed by the fixed sleep when
that send succeeded, and by a log entry (with no sleep) when it failed —
so the fixed non-configurable delay separates consecutive send attempts
exactly when the earlier attempt succeeded, a delay also follows a final
successful send, and no destination is ever retried (there is exactly one
send per channel). -/
theorem c8_sleep_after_success (text : String) (outcome : Nat → SendOutcome) :
    ∀ (channels : List String) (i : Nat),
      (broadcast_loop text outcome channels i).2.2
        = (List.enumFrom i channels).flatMap (fun p =>
            Event.send p.2 text ::
              (match outcome p.1 with
               | SendOutcome.success => [Event.sleep]
               | SendOutcome.apiError => [Event.logError p.2]
               | SendOutcome.otherError => [Event.logError p.2]))
      ∧ send_calls (broadcast_loop text outcome channels i).2.2
          = channels.map (fun c => (c, text)) := by
  intro channels
  induction channels with
  | nil =>
    intro i
    exact ⟨rfl, broadcast_loop_send_calls text outcome [] i⟩
  | cons c rest ih =>
    intro i
    refine ⟨?_, broadcast_loop_send_calls text outcome (c :: rest) i⟩
    have ihev := (ih (i + 1)).1
    cases h : outcome i <;>
      simp [broadcast_loop, h, List.enumFrom, ihev]
